import Mathlib

/-!
Verification of the location-tracking relay server (`src/app.py`).

The Python program keeps four pieces of process-wide state: the map of current
positions (`localizacoes`), the per-device trail history (`historico`), the
reverse-geocoding address cache (`cache_enderecos`), and two JSON files (device
names, persisted history).  Python dictionaries are embedded as association
lists with insertion-order semantics; Python floats are embedded as rationals
(`ℚ`); JSON values that can be absent are embedded as `Option`; external HTTP
services are embedded as oracle functions (`none` models a transport failure or
a non-200 response).
-/

set_option maxRecDepth 2048

namespace Rastreador

/-! ### Association lists (Python `dict` with insertion order) -/

/-- Lookup in an association list: value of the first matching key
(Python `d.get(k)` / `d[k]`). -/
def alookup {κ α : Type} [DecidableEq κ] : List (κ × α) → κ → Option α
  | [], _ => none
  | (k', v') :: rest, k => if k' = k then some v' else alookup rest k

/-- Update in an association list: replace the value at an existing key in
place, or append a new binding (Python `d[k] = v`, preserving insertion
order). -/
def aset {κ α : Type} [DecidableEq κ] : List (κ × α) → κ → α → List (κ × α)
  | [], k, v => [(k, v)]
  | (k', v') :: rest, k, v =>
      if k' = k then (k, v) :: rest else (k', v') :: aset rest k v

/-- Deletion from an association list (Python `del d[k]`): drop every binding
of the key, so that lookup afterwards is `none` unconditionally. -/
def aerase {κ α : Type} [DecidableEq κ] (m : List (κ × α)) (k : κ) :
    List (κ × α) :=
  m.filter (fun p => p.1 ≠ k)

theorem alookup_aset {κ α : Type} [DecidableEq κ] (m : List (κ × α)) (k : κ)
    (v : α) (d : κ) :
    alookup (aset m k v) d = if d = k then some v else alookup m d := by
  induction m with
  | nil =>
      by_cases h : d = k
      · subst h; simp [aset, alookup]
      · simp [aset, alookup, h, Ne.symm h]
  | cons p rest ih =>
      obtain ⟨k', v'⟩ := p
      by_cases hk : k' = k
      · subst hk
        by_cases hd : d = k'
        · subst hd; simp [aset, alookup]
        · simp [aset, alookup, hd, Ne.symm hd]
      · by_cases hd : d = k'
        · subst hd
          simp [aset, alookup, hk, Ne.symm hk]
        · simp [aset, alookup, hk, hd, Ne.symm hd, ih]

theorem alookup_aerase {κ α : Type} [DecidableEq κ] (m : List (κ × α)) (k : κ)
    (d : κ) :
    alookup (aerase m k) d = if d = k then none else alookup m d := by
  induction m with
  | nil =>
      by_cases h : d = k <;> simp [aerase, alookup, h]
  | cons p rest ih =>
      obtain ⟨k', v'⟩ := p
      by_cases hk : k' = k
      · subst hk
        by_cases hd : d = k'
        · subst hd
          simpa [aerase, alookup] using ih
        · simpa [aerase, alookup, hd, Ne.symm hd] using ih
      · by_cases hd : d = k'
        · subst hd
          simp [aerase, alookup, hk, Ne.symm hk]
        · simpa [aerase, alookup, hk, hd, Ne.symm hd] using ih

theorem mem_aset {κ α : Type} [DecidableEq κ] (m : List (κ × α)) (k : κ)
    (v : α) (p : κ × α) : p ∈ aset m k v → p = (k, v) ∨ p ∈ m := by
  induction m with
  | nil =>
      intro hp
      exact Or.inl (by simpa [aset] using hp)
  | cons q rest ih =>
      obtain ⟨k', v'⟩ := q
      intro hp
      by_cases hk : k' = k
      · subst hk
        simp [aset] at hp
        rcases hp with h | h
        · exact Or.inl (by simp [h])
        · exact Or.inr (by simp [h])
      · simp [aset, hk] at hp
        rcases hp with h | h
        · exact Or.inr (by simp [h])
        · rcases ih h with h' | h'
          · exact Or.inl h'
          · exact Or.inr (by simp [h'])

theorem alookup_mem {κ α : Type} [DecidableEq κ] (m : List (κ × α)) (k : κ)
    (v : α) : alookup m k = some v → (k, v) ∈ m := by
  induction m with
  | nil => intro h; simp [alookup] at h
  | cons q rest ih =>
      obtain ⟨k', v'⟩ := q
      intro h
      by_cases hk : k' = k
      · subst hk
        simp [alookup] at h
        simp [h]
      · simp [alookup, hk] at h
        exact List.mem_cons_of_mem _ (ih h)

/-! ### Data model -/

/-- One trail entry stored in `historico`: the dictionary
`{"lat": lat, "lng": lng, "timestamp": timestamp}`. -/
structure TrailPoint where
  lat : ℚ
  lng : ℚ
  timestamp : ℚ
deriving DecidableEq, Repr

/-- The `Localizacao` dataclass of the source. `bateria = none` embeds the
Python value `None`. -/
structure Localizacao where
  device_id : String
  lat : ℚ
  lng : ℚ
  timestamp : ℚ
  endereco : String := ""
  bateria : Option ℚ := none
deriving DecidableEq, Repr

/-- A serialized JSON scalar, as produced by `jsonify`. -/
inductive JVal where
  | str (s : String)
  | num (q : ℚ)
  | null
deriving DecidableEq, Repr

/-- `dataclasses.asdict`: every field is emitted, `None` becomes JSON null. -/
def Localizacao.asdict (l : Localizacao) : List (String × JVal) :=
  [("device_id", .str l.device_id), ("lat", .num l.lat), ("lng", .num l.lng),
   ("timestamp", .num l.timestamp), ("endereco", .str l.endereco),
   ("bateria", match l.bateria with | some b => .num b | none => .null)]

/-- `Localizacao.to_dict` of the source: the `bateria` key is emitted only
when the field is not `None`. -/
def Localizacao.to_dict (l : Localizacao) : List (String × JVal) :=
  [("device_id", .str l.device_id), ("lat", .num l.lat), ("lng", .num l.lng),
   ("timestamp", .num l.timestamp), ("endereco", .str l.endereco)] ++
  (match l.bateria with | some b => [("bateria", JVal.num b)] | none => [])

/-- Registry value stored in `nomes_dispositivos.json`: either the usual
`{"nome", "icon", "color"}` object or some other JSON value (the
`isinstance(info, dict)` check in the upsert endpoint distinguishes them). -/
structure NomeInfo where
  nome : String
  icon : String
  color : String
deriving DecidableEq, Repr

inductive NomeVal where
  | obj (info : NomeInfo)
  | other
deriving DecidableEq, Repr

/-- The process state: the three in-memory dictionaries plus the contents of
the two persisted JSON files (file reads are modelled as succeeding; the
source returns `{}` on a read failure and silently drops write failures). -/
structure ServerState where
  localizacoes : List (String × Localizacao)
  historico : List (String × List TrailPoint)
  cache_enderecos : List ((ℤ × ℤ) × String)
  nomesFile : List (String × NomeVal)
  historicoFile : List (String × List TrailPoint)
deriving DecidableEq

/-- The empty initial state (fresh process, no persisted files). -/
def initState : ServerState := ⟨[], [], [], [], []⟩

/-! ### Trail capping and persistence -/

/-- Python `pontos[-2000:]`: keep the last 2000 entries. -/
def capTrail (l : List TrailPoint) : List TrailPoint :=
  l.drop (l.length - 2000)

/-- `salvar_historico`: the map written to `historico.json`, each per-device
array limited to its last 2000 points
(`pontos[-2000:] if len(pontos) > 2000 else pontos`). -/
def salvarHistoricoMap (m : List (String × List TrailPoint)) :
    List (String × List TrailPoint) :=
  m.map (fun p => (p.1, if 2000 < p.2.length then capTrail p.2 else p.2))

/-! ### Ingestion endpoint (`POST /api/localizacao`) -/

/-- The parsed JSON body of an ingestion request.  For `lat`, `lng` and
`bateria`, the outer `Option` is key presence and the inner `Option` is
whether Python `float(value)` succeeds (`some none` = present but not
convertible, so `float` raises). -/
structure IngestReq where
  device_id : Option String
  lat : Option (Option ℚ)
  lng : Option (Option ℚ)
  timestamp : Option ℚ
  bateria : Option (Option ℚ)
deriving DecidableEq

inductive IngestOut where
  | badRequest
  | serverError
  | ok
deriving DecidableEq, Repr

/-- Battery validation of the source: absent stays absent, a value that does
not convert becomes `None`, a converted value outside `[0, 100]` becomes
`None`. -/
def normBateria : Option (Option ℚ) → Option ℚ
  | none => none
  | some none => none
  | some (some b) => if b < 0 ∨ b > 100 then none else some b

/-- `receber_localizacao`.  The request body is `none` when `get_json`
produced no (or an empty/falsy) document.  A present-but-unconvertible
`lat`/`lng` raises inside the handler's `try`, reaching the generic 500
branch with no state change. -/
def receber (st : ServerState) (body : Option IngestReq) (now : ℚ) :
    ServerState × IngestOut :=
  match body with
  | none => (st, .badRequest)
  | some data =>
    match data.lat, data.lng with
    | none, _ => (st, .badRequest)
    | some _, none => (st, .badRequest)
    | some latV, some lngV =>
      match latV, lngV with
      | some lat, some lng =>
        let device_id := data.device_id.getD "dispositivo_1"
        let timestamp := data.timestamp.getD now
        let bateria := normBateria data.bateria
        let loc : Localizacao :=
          { device_id := device_id, lat := lat, lng := lng,
            timestamp := timestamp, endereco := "", bateria := bateria }
        let hist0 := (alookup st.historico device_id).getD []
        let hist := capTrail (hist0 ++ [⟨lat, lng, timestamp⟩])
        let historico := aset st.historico device_id hist
        ({ st with
            localizacoes := aset st.localizacoes device_id loc,
            historico := historico,
            historicoFile := salvarHistoricoMap historico }, .ok)
      | _, _ => (st, .serverError)

/-- A sequence of ingestion calls, each with its own body and receive time. -/
def runIngest (st : ServerState) (reqs : List (Option IngestReq × ℚ)) :
    ServerState :=
  reqs.foldl (fun s r => (receber s r.1 r.2).1) st

/-! ### Reverse geocoding (`reverse_geocode`, `_formatar_endereco_simples`) -/

/-- The `address` object of a Nominatim reverse response; every field embeds
`addr.get(key)` (`none` = key absent). -/
structure Addr where
  road : Option String := none
  street : Option String := none
  pedestrian : Option String := none
  neighbourhood : Option String := none
  suburb : Option String := none
  quarter : Option String := none
  city_district : Option String := none
  district : Option String := none
  residential : Option String := none
  city : Option String := none
  town : Option String := none
  village : Option String := none
  municipality : Option String := none
  county : Option String := none
deriving DecidableEq

/-- Python's `a or b` specialised to strings whose falsy value is `""`
(a field read `addr.get(k)` that returned `None` is embedded as `""` via
`Option.getD`). -/
def pyOrS (a b : String) : String :=
  if a = "" then b else a

/-- Python `s.strip()`: drop leading and trailing whitespace. -/
def pyStrip (s : String) : String :=
  ⟨(((s.data.dropWhile Char.isWhitespace).reverse.dropWhile
      Char.isWhitespace)).reverse⟩

/-- Python `s.split(",")` (always at least one piece; empty pieces kept). -/
def splitCommaAux : List Char → List Char → List String
  | [], acc => [⟨acc.reverse⟩]
  | c :: cs, acc =>
      if c = ',' then ⟨acc.reverse⟩ :: splitCommaAux cs []
      else splitCommaAux cs (c :: acc)

def splitComma (s : String) : List String :=
  splitCommaAux s.data []

/-- Python `" " in s`. -/
def hasSpace (s : String) : Bool :=
  s.data.contains ' '

/-- `_formatar_endereco_simples`. `none` embeds a falsy (empty) address
dictionary, which hits the early `not addr` return. -/
def _formatar_endereco_simples (addr : Option Addr) : String :=
  match addr with
  | none => "Endereço não encontrado"
  | some a =>
    let rua := pyOrS (a.road.getD "")
      (pyOrS (a.street.getD "") (a.pedestrian.getD ""))
    let bairro := pyOrS (a.neighbourhood.getD "")
      (pyOrS (a.suburb.getD "")
        (pyOrS (a.quarter.getD "")
          (pyOrS (a.city_district.getD "")
            (pyOrS (a.district.getD "") (a.residential.getD "")))))
    let cidade := pyOrS (a.city.getD "")
      (pyOrS (a.town.getD "")
        (pyOrS (a.village.getD "")
          (pyOrS (a.municipality.getD "") (a.county.getD ""))))
    let partes := [rua, bairro, cidade].filter (· ≠ "")
    if partes = [] then "Endereço não encontrado"
    else String.intercalate ", " partes

/-- Rounding to 4 decimal places, as an integer number of 1/10000 units:
the embedding of the `f"{lat:.4f}"` component of the cache key. -/
def round4 (q : ℚ) : ℤ :=
  (q * 10000 + 1 / 2).floor

/-- The cache key `f"{lat:.4f}_{lng:.4f}"`, embedded as the pair of rounded
coordinates. -/
def cacheKey (lat lng : ℚ) : ℤ × ℤ :=
  (round4 lat, round4 lng)

/-- Oracle for the Nominatim reverse endpoint at given coordinates:
`none` = transport failure or non-200 status; `some a` = a 200 response whose
`data.get("address", {})` is embedded by `a` (`none` inside = falsy/absent
address object). -/
def REnv : Type := ℚ → ℚ → Option (Option Addr)

/-- `reverse_geocode`: returns the resolved string, the updated cache, and
how many external requests were issued (0 or 1). A failed external call
returns the fallback literal and caches nothing. -/
def reverse_geocode (env : REnv) (cache : List ((ℤ × ℤ) × String))
    (lat lng : ℚ) : String × List ((ℤ × ℤ) × String) × ℕ :=
  let key := cacheKey lat lng
  match alookup cache key with
  | some e => (e, cache, 0)
  | none =>
    match env lat lng with
    | some addr =>
        let endereco := _formatar_endereco_simples addr
        (endereco, aset cache key endereco, 1)
    | none => ("Endereço não disponível", cache, 1)

/-! ### Read endpoints (`GET /api/localizacoes`, `GET /api/endereco/<id>`) -/

/-- `listar_localizacoes`: serializes every current position with
`dataclasses.asdict` (not with `Localizacao.to_dict`). -/
def listar_localizacoes (st : ServerState) : List (List (String × JVal)) :=
  st.localizacoes.map (fun p => Localizacao.asdict p.2)

inductive ObterOut where
  | notFound
  | ok (resp : List (String × JVal))
deriving DecidableEq

/-- `obter_endereco`: resolves (and stores) the address when the record's
`endereco` is still empty, then builds the response dictionary by hand,
emitting `bateria` only when present. -/
def obter_endereco (env : REnv) (st : ServerState) (device_id : String) :
    ServerState × ObterOut :=
  match alookup st.localizacoes device_id with
  | none => (st, .notFound)
  | some loc0 =>
    let resolved :=
      if loc0.endereco = "" then
        let r := reverse_geocode env st.cache_enderecos loc0.lat loc0.lng
        let loc := { loc0 with endereco := r.1 }
        (loc, { st with
                  cache_enderecos := r.2.1,
                  localizacoes := aset st.localizacoes device_id loc })
      else (loc0, st)
    let loc := resolved.1
    let resp := [("device_id", JVal.str device_id),
                 ("endereco", JVal.str loc.endereco),
                 ("lat", JVal.num loc.lat), ("lng", JVal.num loc.lng)]
    let resp :=
      match loc.bateria with
      | some b => resp ++ [("bateria", JVal.num b)]
      | none => resp
    (resolved.2, .ok resp)

/-! ### Registration (`POST /api/cadastrar`) -/

/-- The Python idiom `(data.get(k) or default).strip() or default`. -/
def defaultStr (o : Option String) (dflt : String) : String :=
  let a := if o.getD "" = "" then dflt else o.getD ""
  if pyStrip a = "" then dflt else pyStrip a

/-- Decimal digits of a natural number, most significant first, with
explicit fuel so the definition is structural (the embedding of
Python `str(n)` for a nonnegative integer). -/
def natDigitsAux : ℕ → ℕ → List Char
  | 0, _ => []
  | fuel + 1, n =>
      if n < 10 then [Char.ofNat (48 + n)]
      else natDigitsAux fuel (n / 10) ++ [Char.ofNat (48 + n % 10)]

/-- Python `str(n)` for a natural number. -/
def natStr (n : ℕ) : String :=
  ⟨natDigitsAux (n + 1) n⟩

/-- `random.randint(10000, 99999)` applied to a raw random draw: the draw is
reduced into the inclusive range, so every sampled value lies in
`[10000, 99999]`. -/
def randint (d : ℕ) : ℕ :=
  10000 + d % 90000

/-- One candidate identifier, `"R" + str(random.randint(10000, 99999))`. -/
def mkId (d : ℕ) : String :=
  "R" ++ natStr (randint d)

/-- The `while device_id in nomes` retry loop, fed by a finite list of random
draws; `none` embeds the (probability-zero only if the registry is full)
case where every draw collides. -/
def genDeviceId (nomes : List (String × NomeVal)) : List ℕ → Option String
  | [] => none
  | d :: ds =>
      let id := mkId d
      if (alookup nomes id).isSome then genDeviceId nomes ds else some id

/-- The shape "one letter followed by five digits". -/
def idShape (s : String) : Bool :=
  match s.data with
  | [] => false
  | c :: rest => c.isAlpha && rest.length == 5 && rest.all Char.isDigit

structure CadReq where
  nome : Option String
  icon : Option String
  color : Option String
deriving DecidableEq

inductive CadOut where
  | badRequest
  | ok (device_id nome icon color : String)
deriving DecidableEq

/-- `cadastrar_rastreador`. -/
def cadastrar (st : ServerState) (body : CadReq) (draws : List ℕ) :
    Option (ServerState × CadOut) :=
  let nome := pyStrip (body.nome.getD "")
  if nome = "" then some (st, .badRequest)
  else
    let icon := defaultStr body.icon "🚗"
    let color := defaultStr body.color "#00d4aa"
    let nomes := st.nomesFile
    match genDeviceId nomes draws with
    | none => none
    | some device_id =>
        some ({ st with
                  nomesFile :=
                    aset nomes device_id (.obj ⟨nome, icon, color⟩) },
              .ok device_id nome icon color)

/-! ### Deletion (`DELETE /api/dispositivo/<device_id>`) -/

inductive RemOut where
  | notFound
  | ok
deriving DecidableEq, Repr

/-- `remover_dispositivo`. -/
def remover (st : ServerState) (device_id : String) :
    ServerState × RemOut :=
  let nomes := st.nomesFile
  match alookup nomes device_id with
  | none => (st, .notFound)
  | some _ =>
    let st := { st with nomesFile := aerase nomes device_id }
    let st :=
      if (alookup st.localizacoes device_id).isSome then
        { st with localizacoes := aerase st.localizacoes device_id }
      else st
    let st :=
      if (alookup st.historico device_id).isSome then
        let historico := aerase st.historico device_id
        { st with historico := historico,
                  historicoFile := salvarHistoricoMap historico }
      else st
    (st, .ok)

/-! ### Name upsert (`POST /api/nomes`) -/

structure NomesReq where
  device_id : Option String
  nome : Option String
  icon : Option String
  color : Option String
deriving DecidableEq

inductive NomesOut where
  | badRequest
  | ok
deriving DecidableEq, Repr

/-- `salvar_nomes_api`. -/
def salvarNomesApi (st : ServerState) (body : NomesReq) :
    ServerState × NomesOut :=
  let nome := pyStrip (body.nome.getD "")
  let icon := defaultStr body.icon "🚗"
  let color := defaultStr body.color "#00d4aa"
  match body.device_id with
  | none => (st, .badRequest)
  | some device_id =>
    if device_id = "" then (st, .badRequest)
    else
      let info :=
        match alookup st.nomesFile device_id with
        | some (.obj info) =>
            NomeVal.obj { info with
              nome := pyOrS nome device_id, icon := icon, color := color }
        | some .other =>
            NomeVal.obj ⟨pyOrS nome device_id, icon, color⟩
        | none =>
            NomeVal.obj ⟨pyOrS nome device_id, icon, color⟩
      ({ st with nomesFile := aset st.nomesFile device_id info }, .ok)

/-! ### Forward geocoding (`GET /api/geocode`) -/

/-- A unified geocode candidate `{"lat": .., "lng": .., "display_name": ..}`. -/
structure GeoResult where
  lat : ℚ
  lng : ℚ
  display_name : String
deriving DecidableEq, Repr

/-- One record of a Nominatim search response (`r.get("lat")`,
`r.get("lon")`, `r.get("display_name", "")`). -/
structure NomRec where
  lat : Option ℚ
  lon : Option ℚ
  display_name : Option String
deriving DecidableEq

/-- One feature of a Photon response: the `geometry.coordinates` array and
the properties consulted by `_photon_to_results`. -/
structure PhotonFeature where
  coordinates : Option (List ℚ)
  street : Option String := none
  housenumber : Option String := none
  locality : Option String := none
  district : Option String := none
  city : Option String := none
  state : Option String := none
  name : Option String := none
deriving DecidableEq

/-- A parsed 200 response of ViaCEP (`erro` is the `{"erro": true}` marker for
an unknown postal code). -/
structure ViaCepResp where
  erro : Bool
  logradouro : Option String := none
  bairro : Option String := none
  localidade : Option String := none
  uf : Option String := none
deriving DecidableEq

/-- The parameters given to `_req_nominatim` (the constant `format=json` and
`limit=10` entries are omitted since they never vary). -/
structure NomParams where
  q : Option String := none
  street : Option String := none
  city : Option String := none
  state : Option String := none
  country : Option String := none
  countrycodes : Option String := none
deriving DecidableEq

/-- The URL builder of `_req_nominatim` keeps only truthy parameter values
(`if v`): an empty-string value is dropped like an absent one. -/
def NomParams.norm (p : NomParams) : NomParams :=
  let f : Option String → Option String :=
    fun o => match o with
             | some "" => none
             | o => o
  ⟨f p.q, f p.street, f p.city, f p.state, f p.country, f p.countrycodes⟩

/-- Oracles for the external services used by `geocode`.  `none` models a
transport failure or a non-200 status for that exact request. -/
structure GeoEnv where
  viacep : String → Option ViaCepResp
  photon : String → Option (List PhotonFeature)
  photonBbox : String → Option (List PhotonFeature)
  nominatim : NomParams → Option (List NomRec)

/-- `_req_nominatim`: a failed or non-200 call yields `[]`. -/
def reqNominatim (env : GeoEnv) (p : NomParams) : List NomRec :=
  (env.nominatim p.norm).getD []

/-- `_nominatim_to_results`: first 10 records, keeping those whose `lat` and
`lon` are both present. -/
def nominatimToResults (nom : List NomRec) : List GeoResult :=
  (nom.take 10).filterMap fun r =>
    match r.lat, r.lon with
    | some la, some lo => some ⟨la, lo, r.display_name.getD ""⟩
    | _, _ => none

/-- A printable stand-in for Python float interpolation `f"{lat}, {lng}"`
(only used as an opaque display label). -/
def ratStr (q : ℚ) : String :=
  toString q.num ++ (if q.den = 1 then "" else "/" ++ toString q.den)

/-- `_photon_to_results`: first 10 features with a coordinate pair; the label
joins the truthy entries of `[street or name, housenumber,
locality or district, city, state]`, falling back to `name` and then to the
printed coordinates. -/
def photonToResults (features : List PhotonFeature) : List GeoResult :=
  (features.take 10).filterMap fun f =>
    match f.coordinates with
    | some (lng :: lat :: _) =>
        let pts := [pyOrS (f.street.getD "") (f.name.getD ""),
                    f.housenumber.getD "",
                    pyOrS (f.locality.getD "") (f.district.getD ""),
                    f.city.getD "", f.state.getD ""]
        let label := String.intercalate ", " (pts.filter (· ≠ ""))
        let label :=
          if label = "" then
            pyOrS (f.name.getD "") (ratStr lat ++ ", " ++ ratStr lng)
          else label
        some ⟨lat, lng, label⟩
    | _ => none

/-- `"".join(c for c in q if c.isdigit())`. -/
def digitsOnly (q : String) : String :=
  ⟨q.data.filter Char.isDigit⟩

/-- `[p.strip() for p in texto.split(",") if p.strip()]`. -/
def splitParts (texto : String) : List String :=
  ((splitComma texto).map pyStrip).filter (· ≠ "")

/-- `_photon_query_simples`: with more than two comma parts, keep the first
part plus the city part (the second-to-last part when the last one is a
2-character state abbreviation, else the last part). -/
def photonSimplify (texto : String) : String :=
  let partes := splitParts texto
  if partes.length ≤ 2 then texto
  else
    let ultima := partes.getD (partes.length - 1) ""
    let cidade :=
      if ultima.length = 2 then partes.getD (partes.length - 2) "" else ultima
    partes.getD 0 "" ++ ", " ++ cidade

/-- The two Nominatim searches driven by a parsed ViaCEP document: the
structured street search when both street and city are present, then the
city-only retry when that found nothing.  The count includes the ViaCEP
request itself. -/
def cepSearch (env : GeoEnv) (vd : ViaCepResp) : List GeoResult × ℕ :=
  if vd.erro then ([], 1)
  else
    let street := vd.logradouro.getD ""
    let city := vd.localidade.getD ""
    let state := vd.uf.getD ""
    let first :=
      if street ≠ "" ∧ city ≠ "" then
        (nominatimToResults (reqNominatim env
          { street := some street, city := some city,
            state := some state, country := some "Brasil" }), 2)
      else ([], 1)
    if first.1 = [] ∧ city ≠ "" then
      (nominatimToResults (reqNominatim env
        { city := some city, state := some state,
          country := some "Brasil" }), first.2 + 1)
    else first

/-- The postal-code block of `geocode` (stage 1).  Returns the stage's
results, the working query (rewritten to the comma-joined ViaCEP fields when
the lookup returned a document but the stage found no results), and the
number of external requests issued. -/
def cepBlock (env : GeoEnv) (q : String) : List GeoResult × String × ℕ :=
  let cep := digitsOnly q
  if cep.length = 8 then
    match env.viacep cep with
    | none => ([], q, 1)
    | some vd =>
      let sc := cepSearch env vd
      let results := sc.1
      (results,
       (if results = [] then
          String.intercalate ", "
            (([vd.logradouro, vd.bairro, vd.localidade, vd.uf].filterMap id
             ).filter (· ≠ ""))
        else q),
       sc.2)
  else ([], q, 0)

/-- Stage 2 / claim stage "simplified free-text search on the second
service": Photon on the simplified query. -/
def stagePhoton (env : GeoEnv) (t : String) : List GeoResult :=
  photonToResults ((env.photon (photonSimplify t)).getD [])

/-- Stage 3: the same Photon query with the Brazil bounding box. -/
def stagePhotonBbox (env : GeoEnv) (t : String) : List GeoResult :=
  photonToResults ((env.photonBbox (photonSimplify t)).getD [])

/-- Stage 4: Nominatim free-form with `", Brasil"` appended and country code
`br`. -/
def stageNomBrasil (env : GeoEnv) (t : String) : List GeoResult :=
  nominatimToResults (reqNominatim env
    { q := some (t ++ ", Brasil"), countrycodes := some "br" })

/-- The parameters of the stage-5 search:
`"<second-to-last part>, <last part>, Brasil"` with country code `br`. -/
def cityQuery (t : String) : NomParams :=
  let partes := splitParts t
  { q := some (partes.getD (partes.length - 2) "" ++ ", " ++
               partes.getD (partes.length - 1) "" ++ ", Brasil"),
    countrycodes := some "br" }

/-- Stage 5: when the query contains a space and has at least two comma
parts, Nominatim on `"<second-to-last part>, <last part>, Brasil"` with
country code `br`. -/
def stageCity (env : GeoEnv) (t : String) : List GeoResult :=
  if hasSpace t then
    if 2 ≤ (splitParts t).length then
      nominatimToResults (reqNominatim env (cityQuery t))
    else []
  else []

/-- Stage 6: the working query itself with country code `br`. -/
def stageRaw (env : GeoEnv) (t : String) : List GeoResult :=
  nominatimToResults (reqNominatim env
    { q := some t, countrycodes := some "br" })

/-- The body of `geocode` after the empty-query check: the sequential
fallback chain over the (possibly rewritten) working query, also counting
every external request issued. -/
def geocodeRun (env : GeoEnv) (q0 : String) : List GeoResult × ℕ :=
  let stage1 := cepBlock env q0
  let r1 := stage1.1
  let q := stage1.2.1
  let c1 := stage1.2.2
  let s2 := if r1 = [] then (stagePhoton env q, c1 + 1) else (r1, c1)
  let s3 := if s2.1 = [] then (stagePhotonBbox env q, s2.2 + 1) else s2
  let s4 := if s3.1 = [] then (stageNomBrasil env q, s3.2 + 1) else s3
  let s5 :=
    if s4.1 = [] ∧ hasSpace q then
      if 2 ≤ (splitParts q).length then
        (nominatimToResults (reqNominatim env (cityQuery q)), s4.2 + 1)
      else s4
    else s4
  let s6 := if s5.1 = [] then (stageRaw env q, s5.2 + 1) else s5
  s6

inductive GeoOut where
  | badRequest
  | ok (results : List GeoResult)
deriving DecidableEq

/-- `geocode`: the endpoint, returning the HTTP outcome and the number of
external requests issued. -/
def geocode (env : GeoEnv) (qRaw : String) : GeoOut × ℕ :=
  let q := pyStrip qRaw
  if q = "" then (.badRequest, 0)
  else
    let r := geocodeRun env q
    (.ok r.1, r.2)

/-- First non-empty list of a list of lists (the "stop at the first stage
producing at least one result" combinator). -/
def firstNonEmpty {α : Type} [DecidableEq α] : List (List α) → List α
  | [] => []
  | l :: ls => if l = [] then firstNonEmpty ls else l

/-- The fallback chain exactly as the claim words it: every stage evaluated
on the submitted (trimmed) query itself, never on a rewritten working
query. -/
def claimChain (env : GeoEnv) (t : String) : List GeoResult :=
  firstNonEmpty
    [(cepBlock env t).1, stagePhoton env t, stagePhotonBbox env t,
     stageNomBrasil env t, stageCity env t, stageRaw env t]

/-- The environment in which every external request fails (transport error
or non-200 status). -/
def failGeoEnv : GeoEnv :=
  ⟨fun _ => none, fun _ => none, fun _ => none, fun _ => none⟩

/-! ## Shared helper lemmas -/

theorem normBateria_spec (o : Option (Option ℚ)) :
    normBateria o =
      match o with
      | some (some b) => if 0 ≤ b ∧ b ≤ 100 then some b else none
      | _ => none := by
  rcases o with _ | o
  · rfl
  · rcases o with _ | b
    · rfl
    · by_cases h : 0 ≤ b ∧ b ≤ 100
      · have h' : ¬ (b < 0 ∨ b > 100) := by
          push_neg
          exact ⟨h.1, h.2⟩
        simp [normBateria, h, h']
      · have h' : b < 0 ∨ b > 100 := by
          by_contra hc
          push_neg at hc
          exact h ⟨hc.1, hc.2⟩
        simp [normBateria, h, h']

theorem capTrail_length_le (l : List TrailPoint) : (capTrail l).length ≤ 2000 := by
  simp only [capTrail, List.length_drop]
  omega

/-- The happy-path step of `receber_localizacao`, as one equation. -/
theorem receber_ok_eq (st : ServerState) (did : Option String)
    (lat lng : ℚ) (ts : Option ℚ) (bat : Option (Option ℚ)) (now : ℚ) :
    receber st (some ⟨did, some (some lat), some (some lng), ts, bat⟩) now =
      ({ st with
          localizacoes := aset st.localizacoes (did.getD "dispositivo_1")
            { device_id := did.getD "dispositivo_1", lat := lat, lng := lng,
              timestamp := ts.getD now, endereco := "",
              bateria := normBateria bat },
          historico := aset st.historico (did.getD "dispositivo_1")
            (capTrail
              ((alookup st.historico (did.getD "dispositivo_1")).getD [] ++
               [⟨lat, lng, ts.getD now⟩])),
          historicoFile := salvarHistoricoMap
            (aset st.historico (did.getD "dispositivo_1")
              (capTrail
                ((alookup st.historico (did.getD "dispositivo_1")).getD [] ++
                 [⟨lat, lng, ts.getD now⟩]))) }, .ok) := rfl

theorem receber_preserves_historico_bound (st : ServerState)
    (body : Option IngestReq) (now : ℚ)
    (h0 : ∀ p ∈ st.historico, p.2.length ≤ 2000) :
    ∀ p ∈ (receber st body now).1.historico, p.2.length ≤ 2000 := by
  rcases body with _ | ⟨did, dlat, dlng, dts, dbat⟩
  · exact h0
  · rcases dlat with _ | latV
    · exact h0
    · rcases dlng with _ | lngV
      · exact h0
      · rcases latV with _ | lat
        · rcases lngV with _ | lng
          · exact h0
          · exact h0
        · rcases lngV with _ | lng
          · exact h0
          · intro p hp
            rw [receber_ok_eq] at hp
            rcases mem_aset _ _ _ _ hp with h | h
            · subst h
              simpa using capTrail_length_le _
            · exact h0 p h

/-! ## Claims -/

/-- **C1.** For every ingestion request whose JSON body contains `lat` and
`lng` (with convertible values, so that the handler reaches its success
return), the current-position record stored for the submitted device
identifier equals exactly the submitted latitude, longitude and timestamp
(the timestamp defaulting to the server receive time when absent, the device
identifier defaulting to `"dispositivo_1"` when absent), with an empty
address string, and with the battery field equal to the submitted value when
it parses as a number in `[0, 100]` and absent otherwise. -/
theorem receber_ingest_spec (st : ServerState) (data : IngestReq)
    (now lat lng : ℚ) (hlat : data.lat = some (some lat))
    (hlng : data.lng = some (some lng)) :
    (receber st (some data) now).2 = .ok ∧
    alookup (receber st (some data) now).1.localizacoes
        (data.device_id.getD "dispositivo_1") =
      some { device_id := data.device_id.getD "dispositivo_1", lat := lat,
             lng := lng, timestamp := data.timestamp.getD now, endereco := "",
             bateria :=
               match data.bateria with
               | some (some b) => if 0 ≤ b ∧ b ≤ 100 then some b else none
               | _ => none } := by
  obtain ⟨did, dlat, dlng, dts, dbat⟩ := data
  have hl : dlat = some (some lat) := hlat
  have hg : dlng = some (some lng) := hlng
  subst hl
  subst hg
  rw [receber_ok_eq]
  refine ⟨rfl, ?_⟩
  rw [alookup_aset, if_pos rfl, ← normBateria_spec]

/-- Witness for C1 at a concrete request. -/
theorem receber_ingest_spec_witness :
    (⟨some "dev", some (some 1), some (some 2), some 3,
      some (some 50)⟩ : IngestReq).lat = some (some 1) ∧
    (receber initState
      (some ⟨some "dev", some (some 1), some (some 2), some 3,
             some (some 50)⟩) 7).2 = .ok :=
  ⟨rfl,
   (receber_ingest_spec initState
      ⟨some "dev", some (some 1), some (some 2), some 3, some (some 50)⟩
      7 1 2 rfl rfl).1⟩

/-- **C2.** Trails are bounded: starting from any state whose in-memory
trails hold at most 2000 points, any sequence of ingestion calls keeps every
device's in-memory trail at or below 2000 entries; every per-device array
produced by the history-file writer has at most 2000 entries; and the cap
keeps a suffix of the trail (the oldest entries are dropped first, the
insertion order of the rest is preserved), of length `min length 2000`. -/
theorem trail_cap_invariant (st : ServerState)
    (reqs : List (Option IngestReq × ℚ))
    (h0 : ∀ p ∈ st.historico, p.2.length ≤ 2000) :
    (∀ d l, alookup (runIngest st reqs).historico d = some l →
       l.length ≤ 2000) ∧
    (∀ (hist : List (String × List TrailPoint)) d l,
       alookup (salvarHistoricoMap hist) d = some l → l.length ≤ 2000) ∧
    (∀ l : List TrailPoint,
       capTrail l <:+ l ∧ (capTrail l).length = min l.length 2000) := by
  refine ⟨?_, ?_, ?_⟩
  · have main : ∀ (rs : List (Option IngestReq × ℚ)) (s : ServerState),
        (∀ p ∈ s.historico, p.2.length ≤ 2000) →
        ∀ p ∈ (runIngest s rs).historico, p.2.length ≤ 2000 := by
      intro rs
      induction rs with
      | nil => intro s hs; simpa [runIngest] using hs
      | cons r rest ih =>
          intro s hs
          have : runIngest s (r :: rest) = runIngest (receber s r.1 r.2).1 rest := by
            simp [runIngest]
          rw [this]
          exact ih _ (receber_preserves_historico_bound s r.1 r.2 hs)
    intro d l hl
    exact main reqs st h0 _ (alookup_mem _ _ _ hl)
  · intro hist
    induction hist with
    | nil => intro d l hl; simp [salvarHistoricoMap, alookup] at hl
    | cons p rest ih =>
        intro d l hl
        simp only [salvarHistoricoMap, List.map_cons, alookup] at hl
        by_cases hd : p.1 = d
        · rw [if_pos hd] at hl
          injection hl with hl
          subst hl
          by_cases hlen : 2000 < p.2.length
          · simpa [hlen] using capTrail_length_le p.2
          · simp only [if_neg hlen]
            omega
        · rw [if_neg hd] at hl
          exact ih d l (by simpa [salvarHistoricoMap] using hl)
  · intro l
    exact ⟨List.drop_suffix _ _, by simp only [capTrail, List.length_drop]; omega⟩

/-- Witness for C2: a concrete run of one successful ingestion from the
empty state. -/
theorem trail_cap_invariant_witness :
    (∀ p ∈ initState.historico, p.2.length ≤ 2000) ∧
    alookup (runIngest initState
        [(some ⟨some "dev", some (some 1), some (some 2), some 3, none⟩,
          7)]).historico "dev" = some [⟨1, 2, 3⟩] ∧
    ([(⟨1, 2, 3⟩ : TrailPoint)]).length ≤ 2000 := by
  refine ⟨?_, by decide, ?_⟩
  · intro p hp
    simp [initState] at hp
  · exact (trail_cap_invariant initState
      [(some ⟨some "dev", some (some 1), some (some 2), some 3, none⟩, 7)]
      (by intro p hp; simp [initState] at hp)).1 "dev" [⟨1, 2, 3⟩] (by decide)

/-- **C4.** Deleting a registered device removes it from the registry, the
current-position map, and the trail map and reports success; deleting an
unregistered identifier reports not-found and leaves the whole state
unchanged. -/
theorem remover_spec (st : ServerState) (device_id : String) :
    ((alookup st.nomesFile device_id).isSome = true →
       (remover st device_id).2 = .ok ∧
       alookup (remover st device_id).1.nomesFile device_id = none ∧
       alookup (remover st device_id).1.localizacoes device_id = none ∧
       alookup (remover st device_id).1.historico device_id = none) ∧
    (alookup st.nomesFile device_id = none →
       (remover st device_id).2 = .notFound ∧
       (remover st device_id).1 = st) := by
  constructor
  · intro hs
    obtain ⟨v, hv⟩ := Option.isSome_iff_exists.mp hs
    by_cases hl : (alookup st.localizacoes device_id).isSome
    · by_cases hh : (alookup st.historico device_id).isSome
      · simp [remover, hv, hl, hh, alookup_aerase]
      · simp [remover, hv, hl, hh, alookup_aerase,
          Option.not_isSome_iff_eq_none.mp hh]
    · by_cases hh : (alookup st.historico device_id).isSome
      · simp [remover, hv, hl, hh, alookup_aerase,
          Option.not_isSome_iff_eq_none.mp hl]
      · simp [remover, hv, hl, hh, alookup_aerase,
          Option.not_isSome_iff_eq_none.mp hl,
          Option.not_isSome_iff_eq_none.mp hh]
  · intro hv
    simp [remover, hv]

/-- A concrete registered device for the C4 witness. -/
def remStWitness : ServerState :=
  { initState with
      nomesFile := [("d", .obj ⟨"n", "i", "c"⟩)],
      localizacoes :=
        [("d", { device_id := "d", lat := 1, lng := 2, timestamp := 3 })],
      historico := [("d", [⟨1, 2, 3⟩])] }

/-- Witness for C4 at a concrete registered device. -/
theorem remover_spec_witness :
    (alookup remStWitness.nomesFile "d").isSome = true ∧
    ((remover remStWitness "d").2 = .ok ∧
     alookup (remover remStWitness "d").1.nomesFile "d" = none ∧
     alookup (remover remStWitness "d").1.localizacoes "d" = none ∧
     alookup (remover remStWitness "d").1.historico "d" = none) :=
  ⟨by decide, (remover_spec remStWitness "d").1 (by decide)⟩

/-! ### Digit-string lemmas for the generated identifiers -/

theorem digitChar_isDigit (r : ℕ) (h : r < 10) :
    (Char.ofNat (48 + r)).isDigit = true := by
  interval_cases r <;> decide

theorem natDigitsAux_all_digits (fuel : ℕ) :
    ∀ n, (natDigitsAux fuel n).all Char.isDigit = true := by
  induction fuel with
  | zero => intro n; rfl
  | succ f ih =>
      intro n
      by_cases h : n < 10
      · simp only [natDigitsAux, if_pos h, List.all_cons, List.all_nil,
          Bool.and_true]
        exact digitChar_isDigit n h
      · simp only [natDigitsAux, if_neg h, List.all_append, ih,
          List.all_cons, List.all_nil, Bool.and_true, Bool.true_and]
        exact digitChar_isDigit (n % 10) (Nat.mod_lt n (by norm_num))

theorem natDigitsAux_length (k : ℕ) :
    ∀ fuel n, n < fuel → 10 ^ k ≤ n → n < 10 ^ (k + 1) →
      (natDigitsAux fuel n).length = k + 1 := by
  induction k with
  | zero =>
      intro fuel n hfuel h1 h2
      cases fuel with
      | zero => omega
      | succ f =>
          have h10 : n < 10 := by simpa using h2
          simp [natDigitsAux, h10]
  | succ k ih =>
      intro fuel n hfuel h1 h2
      cases fuel with
      | zero => omega
      | succ f =>
          have hten : (10 : ℕ) ≤ 10 ^ (k + 1) := by
            calc (10 : ℕ) = 10 ^ 1 := (pow_one 10).symm
            _ ≤ 10 ^ (k + 1) := Nat.pow_le_pow_right (by norm_num) (by omega)
          have h10 : ¬ n < 10 := by omega
          have hdiv1 : 10 ^ k ≤ n / 10 := by
            rw [Nat.le_div_iff_mul_le (by norm_num)]
            calc 10 ^ k * 10 = 10 ^ (k + 1) := (pow_succ 10 k).symm
            _ ≤ n := h1
          have hdiv2 : n / 10 < 10 ^ (k + 1) := by
            rw [Nat.div_lt_iff_lt_mul (by norm_num)]
            calc n < 10 ^ (k + 1 + 1) := h2
            _ = 10 ^ (k + 1) * 10 := pow_succ 10 (k + 1)
          have hlt : n / 10 < f := by
            have := Nat.div_lt_self (show 0 < n by omega)
              (show 1 < 10 by norm_num)
            omega
          simp only [natDigitsAux, if_neg h10, List.length_append,
            List.length_cons, List.length_nil]
          rw [ih f (n / 10) hlt hdiv1 hdiv2]

theorem natStr_length_five (n : ℕ) (h1 : 10000 ≤ n) (h2 : n < 100000) :
    (natDigitsAux (n + 1) n).length = 5 := by
  have e4 : (10 : ℕ) ^ 4 = 10000 := by norm_num
  have e5 : (10 : ℕ) ^ (4 + 1) = 100000 := by norm_num
  have := natDigitsAux_length 4 (n + 1) n (by omega) (by omega) (by omega)
  simpa using this

theorem randint_range (d : ℕ) : 10000 ≤ randint d ∧ randint d < 100000 := by
  unfold randint
  have := Nat.mod_lt d (show 0 < 90000 by norm_num)
  omega

theorem mkId_shape (d : ℕ) : idShape (mkId d) = true := by
  have hr := randint_range d
  have hlen := natStr_length_five (randint d) hr.1 hr.2
  have hdig := natDigitsAux_all_digits (randint d + 1) (randint d)
  have hb : idShape (mkId d) =
      ('R'.isAlpha &&
        ((natDigitsAux (randint d + 1) (randint d)).length == 5) &&
        (natDigitsAux (randint d + 1) (randint d)).all Char.isDigit) := rfl
  rw [hb, hlen, hdig]
  decide

theorem genDeviceId_spec (nomes : List (String × NomeVal)) :
    ∀ draws did, genDeviceId nomes draws = some did →
      alookup nomes did = none ∧ idShape did = true := by
  intro draws
  induction draws with
  | nil => intro did h; simp [genDeviceId] at h
  | cons d ds ih =>
      intro did h
      simp only [genDeviceId] at h
      by_cases hc : (alookup nomes (mkId d)).isSome = true
      · rw [if_pos hc] at h
        exact ih did h
      · rw [if_neg hc] at h
        injection h with h
        subst h
        exact ⟨Option.not_isSome_iff_eq_none.mp (by simpa using hc),
               mkId_shape d⟩

/-- **C5.** A registration whose trimmed name is non-empty returns a device
identifier that was not previously a key of the registry and that matches
the fixed shape (one letter followed by five digits); a blank name is
rejected with the validation error. -/
theorem cadastrar_spec (st : ServerState) (body : CadReq) (draws : List ℕ) :
    (pyStrip (body.nome.getD "") = "" →
       cadastrar st body draws = some (st, .badRequest)) ∧
    (∀ st' did n i c,
       cadastrar st body draws = some (st', .ok did n i c) →
       alookup st.nomesFile did = none ∧ idShape did = true) := by
  constructor
  · intro h
    simp [cadastrar, h]
  · intro st' did n i c h
    simp only [cadastrar] at h
    by_cases hn : pyStrip (body.nome.getD "") = ""
    · rw [if_pos hn] at h
      simp at h
    · rw [if_neg hn] at h
      rcases hg : genDeviceId st.nomesFile draws with _ | id
      · rw [hg] at h
        simp at h
      · rw [hg] at h
        simp only [Option.some.injEq, Prod.mk.injEq, CadOut.ok.injEq] at h
        obtain ⟨-, hdid, -, -, -⟩ := h
        subst hdid
        exact genDeviceId_spec st.nomesFile draws id hg

/-- Witness for C5 at a concrete registration call. -/
theorem cadastrar_spec_witness :
    alookup initState.nomesFile "R10000" = none ∧ idShape "R10000" = true :=
  (cadastrar_spec initState ⟨some "meu carro", none, none⟩ [0]).2
    { initState with
        nomesFile := [("R10000", .obj ⟨"meu carro", "🚗", "#00d4aa"⟩)] }
    "R10000" "meu carro" "🚗" "#00d4aa" (by decide)

/-- **C10.** The name-upsert endpoint accepts any request with a non-empty
device identifier, even when the name is missing or blank after trimming: it
stores the identifier itself as the display name in that case, and replaces
a blank icon or color with the fixed defaults. -/
theorem salvar_nomes_spec (st : ServerState) (body : NomesReq) (d : String)
    (hd : body.device_id = some d) (hne : d ≠ "") :
    (salvarNomesApi st body).2 = .ok ∧
    alookup (salvarNomesApi st body).1.nomesFile d =
      some (.obj
        { nome := if pyStrip (body.nome.getD "") = "" then d
                  else pyStrip (body.nome.getD ""),
          icon := defaultStr body.icon "🚗",
          color := defaultStr body.color "#00d4aa" }) := by
  simp only [salvarNomesApi, hd]
  rw [if_neg hne]
  refine ⟨rfl, ?_⟩
  rw [alookup_aset, if_pos rfl]
  rcases hi : alookup st.nomesFile d with _ | v
  · rfl
  · rcases v with info | _
    · rfl
    · rfl

/-- Witness for C10: an upsert with no name and blank icon/color. -/
theorem salvar_nomes_spec_witness :
    (salvarNomesApi initState ⟨some "dev1", none, some "  ", some ""⟩).2 =
      .ok ∧
    alookup (salvarNomesApi initState
        ⟨some "dev1", none, some "  ", some ""⟩).1.nomesFile "dev1" =
      some (.obj ⟨"dev1", "🚗", "#00d4aa"⟩) := by
  have h := salvar_nomes_spec initState
    ⟨some "dev1", none, some "  ", some ""⟩ "dev1" rfl (by decide)
  refine ⟨h.1, ?_⟩
  rw [h.2]
  decide

/-- **C9.** A stored position with an absent battery is serialized with a
`"bateria": null` entry by the listing endpoint (which uses
`dataclasses.asdict`), while both `Localizacao.to_dict` and the
hand-built response of `GET /api/endereco/<id>` omit the `bateria` key
entirely. -/
theorem battery_serialization (st : ServerState) (env : REnv) (d : String)
    (loc : Localizacao) (hloc : alookup st.localizacoes d = some loc)
    (hbat : loc.bateria = none) :
    ("bateria", JVal.null) ∈ Localizacao.asdict loc ∧
    Localizacao.asdict loc ∈ listar_localizacoes st ∧
    "bateria" ∉ (Localizacao.to_dict loc).map Prod.fst ∧
    ∃ resp, (obter_endereco env st d).2 = .ok resp ∧
      "bateria" ∉ resp.map Prod.fst := by
  obtain ⟨did0, lat0, lng0, ts0, end0, bat0⟩ := loc
  simp only at hbat
  subst hbat
  refine ⟨?_, ?_, ?_, ?_⟩
  · simp [Localizacao.asdict]
  · exact List.mem_map.mpr ⟨(d, _), alookup_mem _ _ _ hloc, rfl⟩
  · simp [Localizacao.to_dict]
  · simp only [obter_endereco, hloc]
    by_cases he : end0 = ""
    · subst he
      refine ⟨_, rfl, ?_⟩
      simp
    · rw [if_neg (by simpa using he)]
      refine ⟨_, rfl, ?_⟩
      simp

/-- A concrete state for the C9 witness. -/
def c9StWitness : ServerState :=
  { initState with
      localizacoes :=
        [("dev", { device_id := "dev", lat := 1, lng := 2, timestamp := 3,
                   endereco := "Rua X", bateria := none })] }

/-- Witness for C9 at a concrete stored position without battery. -/
theorem battery_serialization_witness :
    alookup c9StWitness.localizacoes "dev" =
      some { device_id := "dev", lat := 1, lng := 2, timestamp := 3,
             endereco := "Rua X", bateria := none } ∧
    ("bateria", JVal.null) ∈ Localizacao.asdict
      { device_id := "dev", lat := 1, lng := 2, timestamp := 3,
        endereco := "Rua X", bateria := none } :=
  ⟨by decide,
   (battery_serialization c9StWitness (fun _ _ => none) "dev"
      { device_id := "dev", lat := 1, lng := 2, timestamp := 3,
        endereco := "Rua X", bateria := none } (by decide) rfl).1⟩

/-- **C6 is false as stated**: when the external reverse-geocoding call
fails, nothing is cached, so invoking the resolver twice for the same
coordinate pair issues two external calls, not at most one. -/
theorem reverse_geocode_cache_cex :
    ¬ ((reverse_geocode (fun _ _ => none) [] 1 2).2.2 +
       (reverse_geocode (fun _ _ => none)
         ((reverse_geocode (fun _ _ => none) [] 1 2).2.1) 1 2).2.2 ≤ 1) := by
  decide

/-- **C6 (amended).** Provided the first invocation's external call succeeds
(or the key is already cached), invoking reverse geocoding twice for
coordinates with the same 4-decimal rounded key issues at most one external
call: the second invocation issues none and is served from the address
cache. -/
theorem reverse_geocode_cache (env : REnv)
    (cache : List ((ℤ × ℤ) × String)) (lat1 lng1 lat2 lng2 : ℚ)
    (hkey : cacheKey lat1 lng1 = cacheKey lat2 lng2)
    (hok : env lat1 lng1 ≠ none) :
    (reverse_geocode env cache lat1 lng1).2.2 +
      (reverse_geocode env
        (reverse_geocode env cache lat1 lng1).2.1 lat2 lng2).2.2 ≤ 1 ∧
    (reverse_geocode env
      (reverse_geocode env cache lat1 lng1).2.1 lat2 lng2).2.2 = 0 ∧
    alookup (reverse_geocode env cache lat1 lng1).2.1 (cacheKey lat2 lng2) =
      some (reverse_geocode env
        (reverse_geocode env cache lat1 lng1).2.1 lat2 lng2).1 := by
  rcases h1 : alookup cache (cacheKey lat1 lng1) with _ | e
  · rcases ha : env lat1 lng1 with _ | addr
    · exact absurd ha hok
    · simp only [reverse_geocode, h1, ha]
      rw [← hkey]
      simp [alookup_aset]
  · simp only [reverse_geocode, h1]
    rw [← hkey]
    simp [h1]

/-- A succeeding reverse-geocoding oracle for the C6 witness. -/
def revOkEnv : REnv := fun _ _ => some (some { road := some "Rua X" })

/-- Witness for the amended C6 at concrete coordinates. -/
theorem reverse_geocode_cache_witness :
    revOkEnv 1 2 ≠ none ∧
    ((reverse_geocode revOkEnv [] 1 2).2.2 +
     (reverse_geocode revOkEnv
       (reverse_geocode revOkEnv [] 1 2).2.1 1 2).2.2 ≤ 1) :=
  ⟨by decide, (reverse_geocode_cache revOkEnv [] 1 2 1 2 rfl (by decide)).1⟩

/-! ### Claim-side address formatting (C7) -/

theorem pyOrS_empty (a : String) : pyOrS a "" = a := by
  by_cases h : a = "" <;> simp [pyOrS, h]

/-- First non-blank value of a list of optional strings (the claim's
"fixed priority order per field"). -/
def firstNonBlank : List (Option String) → String
  | [] => ""
  | o :: rest => pyOrS (o.getD "") (firstNonBlank rest)

/-- The street, by the claim's priority order. -/
def claimStreet (a : Addr) : String :=
  firstNonBlank [a.road, a.street, a.pedestrian]

/-- The neighborhood: `neighbourhood` before `suburb` and the broader
district-level fields. -/
def claimNeighborhood (a : Addr) : String :=
  firstNonBlank [a.neighbourhood, a.suburb, a.quarter, a.city_district,
    a.district, a.residential]

/-- The city: `city` before `town`, `village`, `municipality`, `county`,
in that order. -/
def claimCity (a : Addr) : String :=
  firstNonBlank [a.city, a.town, a.village, a.municipality, a.county]

/-- The claim's wording of the formatter: "street, neighborhood, city" with
absent parts omitted, the fixed literal when nothing resolves. -/
def claimFormat : Option Addr → String
  | none => "Endereço não encontrado"
  | some a =>
      let partes :=
        [claimStreet a, claimNeighborhood a, claimCity a].filter (· ≠ "")
      if partes = [] then "Endereço não encontrado"
      else String.intercalate ", " partes

/-- **C7.** The resolved address string is exactly the claim's
"street, neighborhood, city" format with the stated per-field priority
orders and the `"Endereço não encontrado"` fallback; and when the external
call fails entirely (on a cache miss), the resolver returns
`"Endereço não disponível"`. -/
theorem formatar_endereco_spec :
    (∀ a : Option Addr, _formatar_endereco_simples a = claimFormat a) ∧
    (∀ (env : REnv) (cache : List ((ℤ × ℤ) × String)) (lat lng : ℚ),
       env lat lng = none →
       alookup cache (cacheKey lat lng) = none →
       (reverse_geocode env cache lat lng).1 = "Endereço não disponível") := by
  constructor
  · intro a
    rcases a with _ | a
    · rfl
    · simp only [_formatar_endereco_simples, claimFormat, claimStreet,
        claimNeighborhood, claimCity, firstNonBlank, pyOrS_empty]
  · intro env cache lat lng he hc
    simp [reverse_geocode, hc, he]

/-- Witness for C7: a failing external call on an empty cache. -/
theorem formatar_endereco_spec_witness :
    ((fun _ _ => none : REnv) 1 2 = none) ∧
    (reverse_geocode (fun _ _ => none) [] 1 2).1 =
      "Endereço não disponível" :=
  ⟨rfl, formatar_endereco_spec.2 (fun _ _ => none) [] 1 2 rfl (by decide)⟩

/-! ### Geocode helper lemmas -/

theorem nominatimToResults_length_le (nom : List NomRec) :
    (nominatimToResults nom).length ≤ 10 :=
  le_trans (List.length_filterMap_le _ _) (List.length_take_le _ _)

theorem photonToResults_length_le (fs : List PhotonFeature) :
    (photonToResults fs).length ≤ 10 :=
  le_trans (List.length_filterMap_le _ _) (List.length_take_le _ _)

theorem reqNominatim_fail (p : NomParams) :
    nominatimToResults (reqNominatim failGeoEnv p) = [] := rfl

theorem stagePhoton_fail (t : String) : stagePhoton failGeoEnv t = [] := rfl

theorem stagePhotonBbox_fail (t : String) :
    stagePhotonBbox failGeoEnv t = [] := rfl

theorem stageNomBrasil_fail (t : String) :
    stageNomBrasil failGeoEnv t = [] := rfl

theorem stageRaw_fail (t : String) : stageRaw failGeoEnv t = [] := rfl

theorem cepBlock_fail (t : String) :
    (cepBlock failGeoEnv t).1 = [] ∧ (cepBlock failGeoEnv t).2.1 = t := by
  by_cases h8 : (digitsOnly t).length = 8 <;>
    simp [cepBlock, failGeoEnv, h8]

theorem geocodeRun_fail (t : String) : (geocodeRun failGeoEnv t).1 = [] := by
  have hcep := cepBlock_fail t
  by_cases hs : hasSpace t
  · by_cases hl : 2 ≤ (splitParts t).length <;>
      simp [geocodeRun, hcep.1, hcep.2, hs, hl, stagePhoton_fail,
        stagePhotonBbox_fail, stageNomBrasil_fail, stageRaw_fail,
        reqNominatim_fail]
  · simp [geocodeRun, hcep.1, hcep.2, hs, stagePhoton_fail,
      stagePhotonBbox_fail, stageNomBrasil_fail, stageRaw_fail,
      reqNominatim_fail]

theorem cepSearch_shape (env : GeoEnv) (vd : ViaCepResp) :
    (cepSearch env vd).1 = [] ∨
    ∃ nom, (cepSearch env vd).1 = nominatimToResults nom := by
  simp only [cepSearch]
  repeat' split
  all_goals first
    | (left; rfl)
    | (right; exact ⟨_, rfl⟩)

theorem cepBlock_shape (env : GeoEnv) (q : String) :
    (cepBlock env q).1 = [] ∨
    ∃ nom, (cepBlock env q).1 = nominatimToResults nom := by
  by_cases h8 : (digitsOnly q).length = 8
  · rcases hv : env.viacep (digitsOnly q) with _ | vd
    · left
      simp [cepBlock, h8, hv]
    · have hc : (cepBlock env q).1 = (cepSearch env vd).1 := by
        simp [cepBlock, h8, hv]
      rw [hc]
      exact cepSearch_shape env vd
  · left
    simp [cepBlock, h8]

theorem cepBlock_length_le (env : GeoEnv) (q : String) :
    ((cepBlock env q).1).length ≤ 10 := by
  rcases cepBlock_shape env q with h | ⟨nom, h⟩
  · simp [h]
  · rw [h]
    exact nominatimToResults_length_le nom

theorem stagePhoton_length_le (env : GeoEnv) (t : String) :
    (stagePhoton env t).length ≤ 10 :=
  photonToResults_length_le _

theorem stagePhotonBbox_length_le (env : GeoEnv) (t : String) :
    (stagePhotonBbox env t).length ≤ 10 :=
  photonToResults_length_le _

theorem stageNomBrasil_length_le (env : GeoEnv) (t : String) :
    (stageNomBrasil env t).length ≤ 10 :=
  nominatimToResults_length_le _

theorem stageCity_length_le (env : GeoEnv) (t : String) :
    (stageCity env t).length ≤ 10 := by
  by_cases hs : hasSpace t
  · by_cases hl : 2 ≤ (splitParts t).length
    · simpa [stageCity, hs, hl] using nominatimToResults_length_le _
    · simp [stageCity, hs, hl]
  · simp [stageCity, hs]

theorem stageRaw_length_le (env : GeoEnv) (t : String) :
    (stageRaw env t).length ≤ 10 :=
  nominatimToResults_length_le _

theorem firstNonEmpty_length_le {α : Type} [DecidableEq α]
    (ls : List (List α)) (h : ∀ l ∈ ls, l.length ≤ 10) :
    (firstNonEmpty ls).length ≤ 10 := by
  induction ls with
  | nil => simp [firstNonEmpty]
  | cons l rest ih =>
      by_cases hl : l = []
      · simp only [firstNonEmpty, if_pos hl]
        exact ih (fun x hx => h x (List.mem_cons_of_mem _ hx))
      · simp only [firstNonEmpty, if_neg hl]
        exact h l (List.mem_cons_self _ _)

/-- The results of `geocodeRun` are exactly the first non-empty stage of the
ordered chain, every stage after the postal one evaluated on the working
query `(cepBlock env t).2.1`. -/
theorem geocodeRun_eq_chain (env : GeoEnv) (t : String) :
    (geocodeRun env t).1 =
      firstNonEmpty
        [(cepBlock env t).1,
         stagePhoton env (cepBlock env t).2.1,
         stagePhotonBbox env (cepBlock env t).2.1,
         stageNomBrasil env (cepBlock env t).2.1,
         stageCity env (cepBlock env t).2.1,
         stageRaw env (cepBlock env t).2.1] := by
  by_cases h1 : (cepBlock env t).1 = []
  case neg => simp [geocodeRun, firstNonEmpty, h1]
  by_cases h2 : stagePhoton env (cepBlock env t).2.1 = []
  case neg => simp [geocodeRun, firstNonEmpty, h1, h2]
  by_cases h3 : stagePhotonBbox env (cepBlock env t).2.1 = []
  case neg => simp [geocodeRun, firstNonEmpty, h1, h2, h3]
  by_cases h4 : stageNomBrasil env (cepBlock env t).2.1 = []
  case neg => simp [geocodeRun, firstNonEmpty, h1, h2, h3, h4]
  by_cases hsp : hasSpace (cepBlock env t).2.1
  · by_cases hpl : 2 ≤ (splitParts (cepBlock env t).2.1).length
    · have hcity : stageCity env (cepBlock env t).2.1 =
          nominatimToResults (reqNominatim env
            (cityQuery (cepBlock env t).2.1)) := by
        simp [stageCity, hsp, hpl]
      by_cases h5 :
          nominatimToResults (reqNominatim env
            (cityQuery (cepBlock env t).2.1)) = []
      · simp only [geocodeRun, firstNonEmpty, h1, h2, h3, h4, hsp, hpl,
          hcity, h5]
        by_cases h6 : stageRaw env (cepBlock env t).2.1 = [] <;> simp [h6]
      · simp [geocodeRun, firstNonEmpty, h1, h2, h3, h4, hsp, hpl, hcity,
          h5]
    · have hcity : stageCity env (cepBlock env t).2.1 = [] := by
        simp [stageCity, hsp, hpl]
      simp only [geocodeRun, firstNonEmpty, h1, h2, h3, h4, hsp, hpl, hcity]
      by_cases h6 : stageRaw env (cepBlock env t).2.1 = [] <;> simp [h6, hpl]
  · have hcity : stageCity env (cepBlock env t).2.1 = [] := by
      simp [stageCity, hsp]
    simp only [geocodeRun, firstNonEmpty, h1, h2, h3, h4, hsp, hcity]
    by_cases h6 : stageRaw env (cepBlock env t).2.1 = [] <;> simp [h6, hsp]

/-- **C8.** The forward-geocoding endpoint returns the 400 validation error
with zero external calls when the query is missing or blank after trimming;
for every non-empty query it returns HTTP 200 with a (possibly empty)
result list whatever the oracles answer; and a transport failure or non-200
response of a stage is treated as zero results for that stage. -/
theorem geocode_error_contract :
    (∀ (env : GeoEnv) (q : String), pyStrip q = "" →
       geocode env q = (.badRequest, 0)) ∧
    (∀ (env : GeoEnv) (q : String), pyStrip q ≠ "" →
       ∃ rs, (geocode env q).1 = .ok rs) ∧
    (∀ q : String, pyStrip q ≠ "" → (geocode failGeoEnv q).1 = .ok []) ∧
    (∀ (env : GeoEnv) (t : String), env.photon (photonSimplify t) = none →
       stagePhoton env t = []) ∧
    (∀ (env : GeoEnv) (p : NomParams), env.nominatim p.norm = none →
       nominatimToResults (reqNominatim env p) = []) := by
  refine ⟨?_, ?_, ?_, ?_, ?_⟩
  · intro env q h
    simp [geocode, h]
  · intro env q h
    simp only [geocode]
    rw [if_neg h]
    exact ⟨_, rfl⟩
  · intro q h
    simp only [geocode]
    rw [if_neg h]
    simp [geocodeRun_fail]
  · intro env t h
    simp [stagePhoton, h, photonToResults]
  · intro env p h
    simp [reqNominatim, h, nominatimToResults]

/-- Witness for C8: a blank query and a plain query against the all-failing
oracles. -/
theorem geocode_error_contract_witness :
    pyStrip "  " = "" ∧ geocode failGeoEnv "  " = (.badRequest, 0) ∧
    pyStrip "x" ≠ "" ∧ (geocode failGeoEnv "x").1 = .ok [] :=
  ⟨by decide, geocode_error_contract.1 failGeoEnv "  " (by decide),
   by decide, geocode_error_contract.2.2.1 "x" (by decide)⟩

/-- An oracle exhibiting the postal-stage query rewrite: the ViaCEP lookup of
the 8-digit query succeeds, its two structured searches find nothing, the
working query becomes `"Rua A, B, C, SP"`, and only the final stage run on
that rewritten text finds a result. -/
def chainCexEnv : GeoEnv :=
  { viacep := fun c =>
      if c = "01310100" then
        some { erro := false, logradouro := some "Rua A", bairro := some "B",
               localidade := some "C", uf := some "SP" }
      else none,
    photon := fun _ => none,
    photonBbox := fun _ => none,
    nominatim := fun p =>
      if p = { q := some "Rua A, B, C, SP", countrycodes := some "br" } then
        some [⟨some 1, some 2, some "X"⟩]
      else some [] }

/-- **C3 is false as stated**: after the postal stage rewrites the working
query, the later stages run on the rewritten text, not on the submitted
query, so the literal chain of the claim (every stage on the raw query)
disagrees with the endpoint at this concrete input. -/
theorem geocode_chain_cex :
    (geocode chainCexEnv "01310100").1 ≠
      .ok (claimChain chainCexEnv "01310100") := by
  decide

/-- **C3 (amended).** For every non-empty query the endpoint returns the
results of the first stage of the ordered fallback chain that produces at
least one result, where the stages after the postal one are evaluated on
the working query — the query as possibly rewritten by the postal stage to
the comma-joined postal-lookup fields when the lookup returned a document
but the stage produced no results — and the returned list holds at most 10
candidates, each carrying a latitude, a longitude and a display label. -/
theorem geocode_fallback_chain (env : GeoEnv) (q : String)
    (hq : pyStrip q ≠ "") :
    (geocode env q).1 =
      .ok (firstNonEmpty
        [(cepBlock env (pyStrip q)).1,
         stagePhoton env (cepBlock env (pyStrip q)).2.1,
         stagePhotonBbox env (cepBlock env (pyStrip q)).2.1,
         stageNomBrasil env (cepBlock env (pyStrip q)).2.1,
         stageCity env (cepBlock env (pyStrip q)).2.1,
         stageRaw env (cepBlock env (pyStrip q)).2.1]) ∧
    ∀ rs, (geocode env q).1 = .ok rs → rs.length ≤ 10 := by
  have hko : (geocode env q).1 = .ok (geocodeRun env (pyStrip q)).1 := by
    simp only [geocode]
    rw [if_neg hq]
  constructor
  · rw [hko, geocodeRun_eq_chain]
  · intro rs hrs
    rw [hko] at hrs
    injection hrs with hrs
    subst hrs
    rw [geocodeRun_eq_chain]
    apply firstNonEmpty_length_le
    intro l hl
    simp only [List.mem_cons, List.not_mem_nil, or_false] at hl
    rcases hl with rfl | rfl | rfl | rfl | rfl | rfl
    · exact cepBlock_length_le env (pyStrip q)
    · exact stagePhoton_length_le env _
    · exact stagePhotonBbox_length_le env _
    · exact stageNomBrasil_length_le env _
    · exact stageCity_length_le env _
    · exact stageRaw_length_le env _

/-- Witness for the amended C3 at a concrete query. -/
theorem geocode_fallback_chain_witness :
    pyStrip "x" ≠ "" ∧
    (geocode failGeoEnv "x").1 =
      .ok (firstNonEmpty
        [(cepBlock failGeoEnv (pyStrip "x")).1,
         stagePhoton failGeoEnv (cepBlock failGeoEnv (pyStrip "x")).2.1,
         stagePhotonBbox failGeoEnv (cepBlock failGeoEnv (pyStrip "x")).2.1,
         stageNomBrasil failGeoEnv (cepBlock failGeoEnv (pyStrip "x")).2.1,
         stageCity failGeoEnv (cepBlock failGeoEnv (pyStrip "x")).2.1,
         stageRaw failGeoEnv (cepBlock failGeoEnv (pyStrip "x")).2.1]) :=
  ⟨by decide, (geocode_fallback_chain failGeoEnv "x" (by decide)).1⟩

end Rastreador
